import Mathlib

/-!
Shallow embedding of the `inventory` Django app (src/inventory/models.py and
src/inventory/admin.py): the catalog schema of an e-commerce site, its save
behaviour (slug auto-generation, timestamp stamping, field defaults) and its
delete behaviour (protect / cascade / set-null referential actions), together
with theorems settling the specification claims.

Conventions of the embedding:
* a row is a structure, a table is a list of rows, the database is a structure
  of tables;
* primary and foreign keys are natural numbers; a UUID value is a natural;
* DecimalField and FloatField values are integers here: no claim depends on
  their numeric representation;
* timestamps are naturals supplied by the caller of a save operation
  (`auto_now_add` and `auto_now` read the clock at save time);
* `django.utils.text.slugify`, the external library helper called by the two
  custom save methods, is embedded for ASCII input: lowercase, drop every
  character that is not alphanumeric, underscore, hyphen or whitespace,
  collapse each run of hyphens and whitespace to one hyphen, strip hyphens
  and underscores from both ends.
-/

namespace Inventory

/-- Characters kept by slugify after lowercasing: the regular expression
removes everything that is not a word character, whitespace or a hyphen. -/
def slugKeepChar (c : Char) : Bool :=
  c.isAlphanum || c = '_' || c = '-' || c.isWhitespace

/-- Collapses every run of hyphens and whitespace characters into a single
hyphen, emitting the hyphen just before the next retained character (a
trailing run emits nothing; the final strip removes a leading hyphen). -/
def collapseSeps : Bool → List Char → List Char
  | _, [] => []
  | pending, c :: rest =>
    if c = '-' || c.isWhitespace then collapseSeps true rest
    else if pending then '-' :: c :: collapseSeps false rest
    else c :: collapseSeps false rest

/-- Characters stripped from both ends of the slug. -/
def slugStripChar (c : Char) : Bool :=
  c = '-' || c = '_'

/-- Removes leading and trailing hyphens and underscores. -/
def stripEnds (l : List Char) : List Char :=
  ((l.dropWhile slugStripChar).reverse.dropWhile slugStripChar).reverse

/-- Embedding of `django.utils.text.slugify` for ASCII input: lowercase the
string, keep only alphanumerics, underscores, hyphens and whitespace, collapse
hyphen/whitespace runs to single hyphens and strip `-`/`_` from both ends. -/
def slugify (s : String) : String :=
  String.mk (stripEnds (collapseSeps false
    ((s.toList.map Char.toLower).filter slugKeepChar)))

/-- Errors surfaced by the storage layer: uniqueness violation on a named
column, protected-reference violation on delete, missing foreign key. -/
inductive DBError where
  | uniqueViolation (column : String)
  | protectedError
  | fkViolation
deriving DecidableEq, Repr

/-- Row of the Category table: `name` (unique), `slug` (unique, blank
allowed), `is_active` (default false), optional self-referencing `parent`
(PROTECT on delete). -/
structure Category where
  id : Nat
  name : String
  slug : String
  is_active : Bool
  parent : Option Nat
deriving DecidableEq, Repr

/-- Row of the SeasonalEvent table. -/
structure SeasonalEvent where
  id : Nat
  start_date : Nat
  end_date : Nat
  name : String
deriving DecidableEq, Repr

/-- Row of the ProductType table: `name`, optional self-referencing `parent`
(PROTECT on delete). -/
structure ProductType where
  id : Nat
  name : String
  parent : Option Nat
deriving DecidableEq, Repr

/-- Row of the Product table. `created_at` / `updated_at` hold 0 until the
first save stamps them (`auto_now_add` / `auto_now`); `category` is SET_NULL
on delete, `seasonal_event` is SET_NULL on delete. -/
structure Product where
  id : Nat
  pid : String
  name : String
  slug : String
  description : Option String
  is_digital : Bool
  created_at : Nat
  updated_at : Nat
  is_active : Bool
  stock_status : String
  category : Option Nat
  seasonal_event : Option Nat
deriving DecidableEq, Repr

/-- Row of the Attribute table. -/
structure Attribute where
  id : Nat
  name : String
  description : Option String
deriving DecidableEq, Repr

/-- Row of the AttributeValue table: `attribute_id` references Attribute
(CASCADE on delete). -/
structure AttributeValue where
  id : Nat
  attribute_value : String
  attribute_id : Nat
deriving DecidableEq, Repr

/-- Row of the ProductLine table: `sku` is a UUIDField whose default is a
fresh version-4 value drawn at instance creation; `product` references
Product with PROTECT on delete. No uniqueness constraint is declared on
`sku`. -/
structure ProductLine where
  id : Nat
  price : Int
  sku : Nat
  stock_qty : Int
  is_active : Bool
  order : Int
  weight : Int
  product : Nat
deriving DecidableEq, Repr

/-- Row of the ProductImage table: `product_line` references ProductLine with
CASCADE on delete. -/
structure ProductImage where
  id : Nat
  alternative_text : String
  url : String
  order : Int
  product_line : Nat
deriving DecidableEq, Repr

/-- Row of the ProductLine_AttributeValue through table: both foreign keys
CASCADE on delete. -/
structure ProductLine_AttributeValue where
  id : Nat
  attribute_value : Nat
  product_line : Nat
deriving DecidableEq, Repr

/-- Row of the Product_ProductType through table: both foreign keys CASCADE
on delete. -/
structure Product_ProductType where
  id : Nat
  product : Nat
  product_type : Nat
deriving DecidableEq, Repr

/-- The database: one list of rows per declared table. -/
structure DB where
  categories : List Category
  seasonal_events : List SeasonalEvent
  product_types : List ProductType
  products : List Product
  attributes : List Attribute
  attribute_values : List AttributeValue
  product_lines : List ProductLine
  product_images : List ProductImage
  productline_attributevalues : List ProductLine_AttributeValue
  product_producttypes : List Product_ProductType
deriving DecidableEq, Repr

/-- The empty database. -/
def emptyDB : DB :=
  ⟨[], [], [], [], [], [], [], [], [], []⟩

/-- Category.save override, pre-persist part: if the slug is falsy (empty),
set it to `slugify(name)`; otherwise leave the instance untouched. -/
def Category.presave (c : Category) : Category :=
  if c.slug = "" then { c with slug := slugify c.name } else c

/-- INSERT of a Category: runs the save override, then enforces primary-key,
name and slug uniqueness and the optional parent foreign key. -/
def Category.insert (db : DB) (c0 : Category) : Except DBError DB :=
  let c := Category.presave c0
  if db.categories.any (fun r => r.id == c.id) then
    .error (DBError.uniqueViolation "id")
  else if db.categories.any (fun r => r.name == c.name) then
    .error (DBError.uniqueViolation "name")
  else if db.categories.any (fun r => r.slug == c.slug) then
    .error (DBError.uniqueViolation "slug")
  else
    match c.parent with
    | none => .ok { db with categories := c :: db.categories }
    | some pidp =>
      if db.categories.any (fun r => r.id == pidp) then
        .ok { db with categories := c :: db.categories }
      else .error DBError.fkViolation

/-- UPDATE of an existing Category row by primary key: runs the save
override, enforces name/slug uniqueness against the other rows and the
optional parent foreign key, then replaces the row. -/
def Category.update (db : DB) (c0 : Category) : Except DBError DB :=
  let c := Category.presave c0
  if db.categories.any (fun r => r.id != c.id && r.name == c.name) then
    .error (DBError.uniqueViolation "name")
  else if db.categories.any (fun r => r.id != c.id && r.slug == c.slug) then
    .error (DBError.uniqueViolation "slug")
  else
    let replaced := db.categories.map (fun r => if r.id == c.id then c else r)
    match c.parent with
    | none => .ok { db with categories := replaced }
    | some pidp =>
      if db.categories.any (fun r => r.id == pidp) then
        .ok { db with categories := replaced }
      else .error DBError.fkViolation

/-- DELETE of a Category: children referencing it through `parent` are
PROTECT, so the delete fails while any exist; Product rows referencing it
through `category` are SET_NULL, so their reference is cleared. -/
def Category.delete (db : DB) (cid : Nat) : Except DBError DB :=
  if db.categories.any (fun r => r.parent == some cid) then
    .error DBError.protectedError
  else
    .ok { db with
      categories := db.categories.filter (fun r => r.id != cid),
      products := db.products.map (fun p =>
        if p.category == some cid then { p with category := none } else p) }

/-- DELETE of a ProductType: children referencing it through `parent` are
PROTECT; Product_ProductType through rows referencing it CASCADE. -/
def ProductType.delete (db : DB) (tid : Nat) : Except DBError DB :=
  if db.product_types.any (fun r => r.parent == some tid) then
    .error DBError.protectedError
  else
    .ok { db with
      product_types := db.product_types.filter (fun r => r.id != tid),
      product_producttypes :=
        db.product_producttypes.filter (fun r => r.product_type != tid) }

/-- Constants of the stock_status enumeration. -/
def Product.IN_STOCK : String := "IS"

/-- Out-of-stock code, the declared default of `stock_status`. -/
def Product.OUT_OF_STOCK : String := "OOS"

/-- Back-ordered code. -/
def Product.BACKORDERED : String := "BO"

/-- The STOCK_STATUS choices mapping (code, human-readable label). -/
def Product.STOCK_STATUS : List (String × String) :=
  [(Product.IN_STOCK, "In Stock"),
   (Product.OUT_OF_STOCK, "Out of Stock"),
   (Product.BACKORDERED, "Back Ordered")]

/-- Validation of the `stock_status` field: the value must fit
`max_length=3` and be one of the declared choice codes. -/
def Product.validStockStatus (s : String) : Bool :=
  decide (s.length ≤ 3) && (Product.STOCK_STATUS.map Prod.fst).contains s

/-- Construction of a Product instance: every argument the model declares a
default for is optional and falls back to that default (`slug` blank,
`is_digital` false, `is_active` false, `stock_status` OUT_OF_STOCK); the
timestamps are unset (0) until the first save. -/
def Product.new (id : Nat) (pid : String) (nm : String)
    (slugOpt : Option String) (descr : Option String)
    (isDigitalOpt : Option Bool) (isActiveOpt : Option Bool)
    (stockStatusOpt : Option String) (category : Option Nat)
    (seasonalEvent : Option Nat) : Product :=
  { id := id, pid := pid, name := nm, slug := slugOpt.getD "",
    description := descr, is_digital := isDigitalOpt.getD false,
    created_at := 0, updated_at := 0, is_active := isActiveOpt.getD false,
    stock_status := stockStatusOpt.getD Product.OUT_OF_STOCK,
    category := category, seasonal_event := seasonalEvent }

/-- Product.save override, pre-persist part: if the slug is falsy (empty),
set it to `slugify(name)`; otherwise leave the instance untouched. -/
def Product.presave (p : Product) : Product :=
  if p.slug = "" then { p with slug := slugify p.name } else p

/-- Optional foreign keys of a Product row must point at existing rows. -/
def Product.fkOk (db : DB) (p : Product) : Bool :=
  (match p.category with
   | none => true
   | some cid => db.categories.any (fun r => r.id == cid)) &&
  (match p.seasonal_event with
   | none => true
   | some sid => db.seasonal_events.any (fun r => r.id == sid))

/-- INSERT of a Product at clock time `now`: runs the save override, stamps
`created_at` and `updated_at` (`auto_now_add` and `auto_now` both fire on
insert), then enforces primary-key, name and slug uniqueness and the
optional foreign keys. -/
def Product.insert (db : DB) (p0 : Product) (now : Nat) : Except DBError DB :=
  let p1 := Product.presave p0
  let p := { p1 with created_at := now, updated_at := now }
  if db.products.any (fun r => r.id == p.id) then
    .error (DBError.uniqueViolation "id")
  else if db.products.any (fun r => r.name == p.name) then
    .error (DBError.uniqueViolation "name")
  else if db.products.any (fun r => r.slug == p.slug) then
    .error (DBError.uniqueViolation "slug")
  else if Product.fkOk db p then
    .ok { db with products := p :: db.products }
  else .error DBError.fkViolation

/-- UPDATE of an existing Product row by primary key at clock time `now`:
runs the save override, refreshes `updated_at` (`auto_now`), keeps the
stored `created_at` (an `auto_now_add` column is not written on update),
enforces uniqueness against the other rows and the optional foreign keys. -/
def Product.update (db : DB) (p0 : Product) (now : Nat) : Except DBError DB :=
  let p1 := Product.presave p0
  let p := { p1 with updated_at := now }
  if db.products.any (fun r => r.id != p.id && r.name == p.name) then
    .error (DBError.uniqueViolation "name")
  else if db.products.any (fun r => r.id != p.id && r.slug == p.slug) then
    .error (DBError.uniqueViolation "slug")
  else if Product.fkOk db p then
    let replaced := db.products.map (fun r =>
      if r.id == p.id then { p with created_at := r.created_at } else r)
    .ok { db with products := replaced }
  else .error DBError.fkViolation

/-- DELETE of a Product: ProductLine rows referencing it are PROTECT, so the
delete fails while any exist; Product_ProductType through rows CASCADE. -/
def Product.delete (db : DB) (pk : Nat) : Except DBError DB :=
  if db.product_lines.any (fun r => r.product == pk) then
    .error DBError.protectedError
  else
    .ok { db with
      products := db.products.filter (fun r => r.id != pk),
      product_producttypes :=
        db.product_producttypes.filter (fun r => r.product != pk) }

/-- Construction of a ProductLine instance: `sku` defaults to `freshUuid`,
the version-4 value drawn by `uuid.uuid4` at instance creation, when no
explicit sku is supplied; `stock_qty` defaults to 0 and `is_active` to
false; `price`, `order`, `weight` and `product` are required. -/
def ProductLine.new (id : Nat) (price : Int) (order : Int) (weight : Int)
    (product : Nat) (freshUuid : Nat) (skuOpt : Option Nat)
    (qtyOpt : Option Int) (activeOpt : Option Bool) : ProductLine :=
  { id := id, price := price, sku := skuOpt.getD freshUuid,
    stock_qty := qtyOpt.getD 0, is_active := activeOpt.getD false,
    order := order, weight := weight, product := product }

/-- INSERT of a ProductLine: primary-key uniqueness and the product foreign
key are enforced; no uniqueness constraint exists on `sku` and no bound is
enforced on `stock_qty`. -/
def ProductLine.insert (db : DB) (pl : ProductLine) : Except DBError DB :=
  if db.product_lines.any (fun r => r.id == pl.id) then
    .error (DBError.uniqueViolation "id")
  else if db.products.any (fun r => r.id == pl.product) then
    .ok { db with product_lines := pl :: db.product_lines }
  else .error DBError.fkViolation

/-- UPDATE of an existing ProductLine row by primary key: ProductLine has no
custom save override, so the instance is written exactly as it stands; in
particular no field, `sku` included, is regenerated. -/
def ProductLine.update (db : DB) (pl : ProductLine) : Except DBError DB :=
  if db.products.any (fun r => r.id == pl.product) then
    let replaced := db.product_lines.map (fun r => if r.id == pl.id then pl else r)
    .ok { db with product_lines := replaced }
  else .error DBError.fkViolation

/-- DELETE of a ProductLine: nothing protects it; ProductImage rows and
ProductLine_AttributeValue through rows referencing it CASCADE. -/
def ProductLine.delete (db : DB) (plid : Nat) : Except DBError DB :=
  .ok { db with
    product_lines := db.product_lines.filter (fun r => r.id != plid),
    product_images := db.product_images.filter (fun r => r.product_line != plid),
    productline_attributevalues :=
      db.productline_attributevalues.filter (fun r => r.product_line != plid) }

/-- ParentCategoryAdmin.parent_name: follow the optional parent reference
and return the parent category's name, or none when the reference is
absent. A pure read: it takes the database and a row and returns a value. -/
def ParentCategoryAdmin.parent_name (db : DB) (c : Category) : Option String :=
  match c.parent with
  | none => none
  | some pidp => (db.categories.find? (fun r => r.id == pidp)).map Category.name


-- Decidable equality of storage-layer results, so that concrete runs of
-- the operations can be checked by evaluation.
deriving instance DecidableEq for Except

/-- Concrete category created without an explicit slug. -/
def catOutdoorA : Category :=
  { id := 1, name := "Outdoor Gear", slug := "", is_active := true,
    parent := none }

/-- Concrete category whose name differs from `catOutdoorA` only in case. -/
def catOutdoorB : Category :=
  { id := 2, name := "outdoor gear", slug := "", is_active := false,
    parent := none }

/-- Database after inserting `catOutdoorA`: its slug has been derived. -/
def dbAfterOutdoor : DB :=
  { emptyDB with categories := [{ catOutdoorA with slug := "outdoor-gear" }] }

/-- Concrete category created with an explicit slug. -/
def catManual : Category :=
  { id := 3, name := "Boots", slug := "footwear", is_active := true,
    parent := none }

/-- Concrete product created without an explicit slug, all defaults. -/
def prodBoots : Product :=
  Product.new 1 "P100" "Hiking Boots" none none none none none none none

/-- Concrete product created with an explicit slug. -/
def prodManual : Product :=
  { prodBoots with id := 2, name := "Trail Mix", slug := "snacks" }

/-- The row stored for `prodBoots` after its first save at clock time 5. -/
def prodBootsStored : Product :=
  { prodBoots with slug := "hiking-boots", created_at := 5, updated_at := 5 }

/-- Database after inserting `prodBoots` at clock time 5. -/
def dbAfterBoots : DB :=
  { emptyDB with products := [prodBootsStored] }

/-- The stored `prodBoots` row with its active flag toggled, as an instance
about to be re-saved. -/
def prodBootsV2 : Product :=
  { prodBootsStored with is_active := true }

/-- Database after re-saving `prodBootsV2` at clock time 9. -/
def dbAfterBootsUpd : DB :=
  { emptyDB with products := [{ prodBootsV2 with updated_at := 9 }] }

/-- Concrete product line with an explicitly supplied sku value 42. -/
def plDupA : ProductLine :=
  { id := 1, price := 999, sku := 42, stock_qty := 3, is_active := true,
    order := 1, weight := 10, product := 1 }

/-- A second product line carrying the same sku value 42. -/
def plDupB : ProductLine := { plDupA with id := 2 }

/-- Database after inserting `plDupA`. -/
def dbDup1 : DB := { dbAfterBoots with product_lines := [plDupA] }

/-- Database after additionally inserting `plDupB`: two rows, one sku. -/
def dbDup2 : DB := { dbAfterBoots with product_lines := [plDupB, plDupA] }

/-- Concrete product line holding a negative stock quantity. -/
def plNegative : ProductLine :=
  { id := 7, price := 100, sku := 77, stock_qty := -3, is_active := false,
    order := 2, weight := 5, product := 1 }

/-- Database after inserting `plNegative`. -/
def dbNeg : DB := { dbAfterBoots with product_lines := [plNegative] }

/-- Concrete parent category with one child. -/
def catParent : Category :=
  { id := 10, name := "Apparel", slug := "apparel", is_active := true,
    parent := none }

/-- Concrete child category referencing `catParent`. -/
def catChild : Category :=
  { id := 11, name := "Shoes", slug := "shoes", is_active := true,
    parent := some 10 }

/-- Concrete parent product type with one child. -/
def typeParent : ProductType := { id := 20, name := "Clothing", parent := none }

/-- Concrete child product type referencing `typeParent`. -/
def typeChild : ProductType := { id := 21, name := "Jackets", parent := some 20 }

/-- Database holding both hierarchies. -/
def dbHier : DB :=
  { emptyDB with
    categories := [catParent, catChild],
    product_types := [typeParent, typeChild] }

/-- A second product line, not targeted by the concrete cascade delete. -/
def plOther : ProductLine :=
  { id := 2, price := 500, sku := 43, stock_qty := 1, is_active := true,
    order := 2, weight := 7, product := 1 }

/-- Concrete image attached to product line 1. -/
def imgBoots : ProductImage :=
  { id := 1, alternative_text := "boots", url := "boots.png", order := 1,
    product_line := 1 }

/-- Concrete image attached to product line 2. -/
def imgOther : ProductImage :=
  { id := 2, alternative_text := "laces", url := "laces.png", order := 2,
    product_line := 2 }

/-- Concrete through row linking product line 1 to an attribute value. -/
def plavBoots : ProductLine_AttributeValue :=
  { id := 1, attribute_value := 1, product_line := 1 }

/-- Concrete through row linking product line 2 to an attribute value. -/
def plavOther : ProductLine_AttributeValue :=
  { id := 2, attribute_value := 1, product_line := 2 }

/-- Database holding a product, two lines, their images and through rows. -/
def dbFull : DB :=
  { dbAfterBoots with
    product_lines := [plDupA, plOther],
    product_images := [imgBoots, imgOther],
    productline_attributevalues := [plavBoots, plavOther] }

/-- Database after cascade-deleting product line 1 out of `dbFull`. -/
def dbCleared : DB :=
  { dbAfterBoots with
    product_lines := [plOther],
    product_images := [imgOther],
    productline_attributevalues := [plavOther] }

/-- Concrete childless category referenced by a product. -/
def catGear : Category :=
  { id := 5, name := "Gear", slug := "gear", is_active := true, parent := none }

/-- Concrete product referencing `catGear`. -/
def prodTent : Product :=
  { prodBoots with id := 3, name := "Tent", slug := "tent", category := some 5 }

/-- Database holding `catGear` and `prodTent`. -/
def dbGear : DB :=
  { emptyDB with categories := [catGear], products := [prodTent] }

/-- Database after deleting `catGear`: the product survives, nulled. -/
def dbGearDel : DB :=
  { emptyDB with products := [{ prodTent with category := none }] }


/-- Category.save leaves an instance with a non-empty slug untouched. -/
theorem category_presave_nonempty (c : Category) (h : ¬ c.slug = "") :
    Category.presave c = c := by
  unfold Category.presave
  rw [if_neg h]

/-- Category.save derives the slug from the name when the slug is empty. -/
theorem category_presave_empty (c : Category) (h : c.slug = "") :
    Category.presave c = { c with slug := slugify c.name } := by
  unfold Category.presave
  rw [if_pos h]

/-- A successful Category INSERT stores exactly the presaved instance. -/
theorem category_insert_ok (db : DB) (c : Category) (db' : DB)
    (h : Category.insert db c = .ok db') :
    db'.categories = Category.presave c :: db.categories := by
  dsimp only [Category.insert] at h
  split at h
  · cases h
  · split at h
    · cases h
    · split at h
      · cases h
      · split at h
        · cases h
          rfl
        · split at h
          · cases h
            rfl
          · cases h

/-- Product.save leaves an instance with a non-empty slug untouched. -/
theorem product_presave_nonempty (p : Product) (h : ¬ p.slug = "") :
    Product.presave p = p := by
  unfold Product.presave
  rw [if_neg h]

/-- Product.save derives the slug from the name when the slug is empty. -/
theorem product_presave_empty (p : Product) (h : p.slug = "") :
    Product.presave p = { p with slug := slugify p.name } := by
  unfold Product.presave
  rw [if_pos h]

/-- Product.save never touches the primary key. -/
theorem product_presave_id (p : Product) : (Product.presave p).id = p.id := by
  unfold Product.presave
  split <;> rfl

/-- A successful Product INSERT stores exactly the presaved instance with
both timestamps stamped to the save-time clock. -/
theorem product_insert_ok (db : DB) (p0 : Product) (now : Nat) (db' : DB)
    (h : Product.insert db p0 now = .ok db') :
    db'.products =
      { Product.presave p0 with created_at := now, updated_at := now }
        :: db.products := by
  dsimp only [Product.insert] at h
  split at h
  · cases h
  · split at h
    · cases h
    · split at h
      · cases h
      · split at h
        · cases h
          rfl
        · cases h

/-- A successful Product UPDATE replaces the row of the instance's primary
key with the presaved instance, refreshing `updated_at` and keeping the
stored `created_at`. -/
theorem product_update_ok (db : DB) (p0 : Product) (now : Nat) (db' : DB)
    (h : Product.update db p0 now = .ok db') :
    db'.products = db.products.map (fun r =>
      if r.id == (Product.presave p0).id then
        { Product.presave p0 with updated_at := now, created_at := r.created_at }
      else r) := by
  dsimp only [Product.update] at h
  split at h
  · cases h
  · split at h
    · cases h
    · split at h
      · cases h
        rfl
      · cases h

/-- C1: a Category or Product saved without an explicit slug persists the
deterministic slugification of its name, and a save of an instance whose
slug is already non-empty leaves the instance — its slug included —
entirely unaltered (in particular, re-saving with an unchanged name never
alters an existing slug). -/
theorem slug_autogeneration_spec (db : DB) (c : Category) (p : Product)
    (now : Nat) :
    (c.slug = "" → ∀ db', Category.insert db c = .ok db' →
      { c with slug := slugify c.name } ∈ db'.categories) ∧
    (c.slug ≠ "" → Category.presave c = c) ∧
    (p.slug = "" → ∀ db', Product.insert db p now = .ok db' →
      { p with slug := slugify p.name, created_at := now, updated_at := now }
        ∈ db'.products) ∧
    (p.slug ≠ "" → Product.presave p = p) := by
  refine ⟨?_, category_presave_nonempty c, ?_, product_presave_nonempty p⟩
  · intro hs db' h
    rw [category_insert_ok db c db' h, ← category_presave_empty c hs]
    exact List.mem_cons_self _ _
  · intro hs db' h
    rw [product_insert_ok db p now db' h, product_presave_empty p hs]
    exact List.mem_cons_self _ _

/-- C1 witness: inserting the slugless category "Outdoor Gear" persists the
slug "outdoor-gear"; saving a category or product carrying an explicit slug
changes nothing; inserting the slugless product "Hiking Boots" persists the
slug "hiking-boots". -/
theorem slug_autogeneration_spec_witness :
    { catOutdoorA with slug := slugify catOutdoorA.name }
      ∈ dbAfterOutdoor.categories ∧
    Category.presave catManual = catManual ∧
    { prodBoots with slug := slugify prodBoots.name, created_at := 5, updated_at := 5 } ∈ dbAfterBoots.products ∧
    Product.presave prodManual = prodManual := by
  refine ⟨?_, ?_, ?_, ?_⟩
  · exact (slug_autogeneration_spec emptyDB catOutdoorA prodBoots 5).1
      (by decide) dbAfterOutdoor (by decide)
  · exact (slug_autogeneration_spec emptyDB catManual prodBoots 5).2.1
      (by decide)
  · exact (slug_autogeneration_spec emptyDB catManual prodBoots 5).2.2.1
      (by decide) dbAfterBoots (by decide)
  · exact (slug_autogeneration_spec emptyDB catManual prodManual 5).2.2.2
      (by decide)

/-- C2 counterexample: the sku column of ProductLine carries no uniqueness
constraint, so two successive inserts with the same sku value 42 both
succeed and the resulting table holds two distinct rows sharing one sku,
refuting the claimed cross-row uniqueness of sku. -/
theorem sku_uniqueness_counterexample :
    ProductLine.insert dbAfterBoots plDupA = .ok dbDup1 ∧
    ProductLine.insert dbDup1 plDupB = .ok dbDup2 ∧
    plDupA ∈ dbDup2.product_lines ∧ plDupB ∈ dbDup2.product_lines ∧
    plDupA.id ≠ plDupB.id ∧ plDupA.sku = plDupB.sku := by decide

/-- C2 amended: the sku of a ProductLine defaults to the version-4 value
drawn exactly once at instance creation when no explicit sku is supplied,
an explicit sku is kept as given, and no save path — insert or update —
regenerates the sku of any row: every row of the saved table either carries
the saved instance's own sku or is an untouched pre-existing row. Cross-row
uniqueness of sku, however, is not enforced by the schema. -/
theorem sku_generation_once_amended (idv : Nat) (price order weight : Int)
    (productFk freshUuid skuVal : Nat) (qtyOpt : Option Int)
    (activeOpt : Option Bool) (db db' : DB) (pl : ProductLine) :
    (ProductLine.new idv price order weight productFk freshUuid none qtyOpt
      activeOpt).sku = freshUuid ∧
    (ProductLine.new idv price order weight productFk freshUuid (some skuVal)
      qtyOpt activeOpt).sku = skuVal ∧
    (ProductLine.insert db pl = .ok db' →
      ∀ r ∈ db'.product_lines, r.sku = pl.sku ∨ r ∈ db.product_lines) ∧
    (ProductLine.update db pl = .ok db' →
      ∀ r ∈ db'.product_lines, r.sku = pl.sku ∨ r ∈ db.product_lines) := by
  refine ⟨rfl, rfl, ?_, ?_⟩
  · intro h r hr
    dsimp only [ProductLine.insert] at h
    split at h
    · cases h
    · split at h
      · cases h
        rcases List.mem_cons.mp hr with rfl | hr
        · exact Or.inl rfl
        · exact Or.inr hr
      · cases h
  · intro h r hr
    dsimp only [ProductLine.update] at h
    split at h
    · cases h
      obtain ⟨r0, hr0, heq⟩ := List.mem_map.mp hr
      by_cases hid : (r0.id == pl.id) = true
      · rw [if_pos hid] at heq
        exact Or.inl (heq ▸ rfl)
      · rw [if_neg hid] at heq
        exact Or.inr (heq ▸ hr0)
    · cases h

/-- C2 witness: a line created without an explicit sku carries the freshly
drawn value 42, one created with an explicit sku keeps it, and after the
concrete insert and update runs every surviving row keeps its sku. -/
theorem sku_generation_once_amended_witness :
    (ProductLine.new 5 100 1 10 1 42 none none none).sku = 42 ∧
    (ProductLine.new 5 100 1 10 1 42 (some 7) none none).sku = 7 ∧
    (plDupA.sku = plDupB.sku ∨ plDupA ∈ dbDup1.product_lines) ∧
    (plDupA.sku = plDupA.sku ∨ plDupA ∈ dbDup1.product_lines) := by
  refine ⟨?_, ?_, ?_, ?_⟩
  · exact (sku_generation_once_amended 5 100 1 10 1 42 7 none none
      dbAfterBoots dbDup1 plDupA).1
  · exact (sku_generation_once_amended 5 100 1 10 1 42 7 none none
      dbAfterBoots dbDup1 plDupA).2.1
  · exact (sku_generation_once_amended 5 100 1 10 1 42 7 none none
      dbDup1 dbDup2 plDupB).2.2.1 (by decide) plDupA (by decide)
  · exact (sku_generation_once_amended 5 100 1 10 1 42 7 none none
      dbDup1 dbDup1 plDupA).2.2.2 (by decide) plDupA (by decide)

/-- C3: deleting a Category or ProductType that at least one child row
references through `parent` fails with the protected-reference error, and
deleting one with zero children succeeds, removing the row and applying the
configured referential actions (SET_NULL on Product.category, CASCADE on
the Product_ProductType through rows). -/
theorem hierarchy_protect_delete_spec (db : DB) (cid tid : Nat) :
    ((db.categories.any fun r => r.parent == some cid) = true →
      Category.delete db cid = .error DBError.protectedError) ∧
    ((db.categories.any fun r => r.parent == some cid) = false →
      Category.delete db cid = .ok { db with
        categories := db.categories.filter (fun r => r.id != cid),
        products := db.products.map (fun p =>
          if p.category == some cid then { p with category := none }
          else p) }) ∧
    ((db.product_types.any fun r => r.parent == some tid) = true →
      ProductType.delete db tid = .error DBError.protectedError) ∧
    ((db.product_types.any fun r => r.parent == some tid) = false →
      ProductType.delete db tid = .ok { db with
        product_types := db.product_types.filter (fun r => r.id != tid),
        product_producttypes :=
          db.product_producttypes.filter (fun r => r.product_type != tid) }) := by
  refine ⟨?_, ?_, ?_, ?_⟩ <;> intro h
  · simp [Category.delete, h]
  · simp [Category.delete, h]
  · simp [ProductType.delete, h]
  · simp [ProductType.delete, h]

/-- C3 witness: in the concrete two-level hierarchies, deleting the parent
category (id 10) and the parent type (id 20) fails protected, while
deleting the childless leaves (ids 11 and 21) succeeds. -/
theorem hierarchy_protect_delete_spec_witness :
    Category.delete dbHier 10 = .error DBError.protectedError ∧
    Category.delete dbHier 11 = .ok { dbHier with
      categories := dbHier.categories.filter (fun r => r.id != 11),
      products := dbHier.products.map (fun p =>
        if p.category == some 11 then { p with category := none } else p) } ∧
    ProductType.delete dbHier 20 = .error DBError.protectedError ∧
    ProductType.delete dbHier 21 = .ok { dbHier with
      product_types := dbHier.product_types.filter (fun r => r.id != 21),
      product_producttypes :=
        dbHier.product_producttypes.filter (fun r => r.product_type != 21) } := by
  refine ⟨?_, ?_, ?_, ?_⟩
  · exact (hierarchy_protect_delete_spec dbHier 10 20).1 (by decide)
  · exact (hierarchy_protect_delete_spec dbHier 11 21).2.1 (by decide)
  · exact (hierarchy_protect_delete_spec dbHier 10 20).2.2.1 (by decide)
  · exact (hierarchy_protect_delete_spec dbHier 11 21).2.2.2 (by decide)

/-- C4: deleting a Product referenced by at least one ProductLine fails
with the protected-reference error; deleting a ProductLine always succeeds
and cascades: the saved state holds no row of the line itself, no
ProductImage referencing it and no ProductLine_AttributeValue through row
referencing it, while every image and through row not referencing it is
retained. -/
theorem product_protect_line_cascade_spec (db : DB) (pk plid : Nat) :
    ((db.product_lines.any fun r => r.product == pk) = true →
      Product.delete db pk = .error DBError.protectedError) ∧
    (ProductLine.delete db plid).isOk = true ∧
    (∀ db', ProductLine.delete db plid = .ok db' →
      (∀ r ∈ db'.product_lines, r.id ≠ plid) ∧
      (∀ r ∈ db'.product_images, r.product_line ≠ plid) ∧
      (∀ r ∈ db'.productline_attributevalues, r.product_line ≠ plid) ∧
      (∀ r ∈ db.product_images, r.product_line ≠ plid →
        r ∈ db'.product_images) ∧
      (∀ r ∈ db.productline_attributevalues, r.product_line ≠ plid →
        r ∈ db'.productline_attributevalues)) := by
  refine ⟨?_, rfl, ?_⟩
  · intro h
    simp [Product.delete, h]
  · intro db' h
    dsimp only [ProductLine.delete] at h
    cases h
    refine ⟨?_, ?_, ?_, ?_, ?_⟩
    · intro r hr
      have := List.of_mem_filter hr
      simpa using this
    · intro r hr
      have := List.of_mem_filter hr
      simpa using this
    · intro r hr
      have := List.of_mem_filter hr
      simpa using this
    · intro r hr hne
      exact List.mem_filter.mpr ⟨hr, by simpa using hne⟩
    · intro r hr hne
      exact List.mem_filter.mpr ⟨hr, by simpa using hne⟩

/-- C4 witness: deleting the concrete product (id 1) with two lines fails
protected; cascade-deleting line 1 succeeds, the unrelated line, image and
through row survive it, and the surviving line is not the deleted one. -/
theorem product_protect_line_cascade_spec_witness :
    Product.delete dbFull 1 = .error DBError.protectedError ∧
    (ProductLine.delete dbFull 1).isOk = true ∧
    plOther.id ≠ 1 ∧
    imgOther ∈ dbCleared.product_images ∧
    plavOther ∈ dbCleared.productline_attributevalues := by
  have T := product_protect_line_cascade_spec dbFull 1 1
  have C := T.2.2 dbCleared (by decide)
  refine ⟨T.1 (by decide), T.2.1, ?_, ?_, ?_⟩
  · exact C.1 plOther (by decide)
  · exact C.2.2.2.1 imgOther (by decide) (by decide)
  · exact C.2.2.2.2 plavOther (by decide) (by decide)

/-- C5: deleting a childless Category that a Product references succeeds,
and in the saved state that Product survives with its category reference
cleared, all of its other fields unchanged, while the products table keeps
its size and every product not referencing the category is untouched. -/
theorem category_setnull_product_spec (db : DB) (cid : Nat) (p : Product)
    (hnochild : (db.categories.any fun r => r.parent == some cid) = false)
    (hp : p ∈ db.products) (hcat : p.category = some cid) :
    (Category.delete db cid).isOk = true ∧
    (∀ db', Category.delete db cid = .ok db' →
      { p with category := none } ∈ db'.products ∧
      db'.products.length = db.products.length ∧
      (∀ q ∈ db.products, q.category ≠ some cid → q ∈ db'.products)) := by
  have hdel : Category.delete db cid = .ok { db with
      categories := db.categories.filter (fun r => r.id != cid),
      products := db.products.map (fun q =>
        if q.category == some cid then { q with category := none }
        else q) } := by
    simp [Category.delete, hnochild]
  refine ⟨by rw [hdel]; rfl, ?_⟩
  intro db' h
  rw [hdel] at h
  cases h
  refine ⟨?_, by simp, ?_⟩
  · have := List.mem_map_of_mem (fun q : Product =>
      if q.category == some cid then { q with category := none } else q) hp
    simpa [hcat] using this
  · intro q hq hqcat
    have := List.mem_map_of_mem (fun q : Product =>
      if q.category == some cid then { q with category := none } else q) hq
    have hne : (q.category == some cid) = false := by
      simpa using hqcat
    simpa [hne] using this

/-- C5 witness: deleting the childless category "Gear" (id 5) out of the
concrete database succeeds, the tent product survives with its category
cleared and the products table keeps its single row. -/
theorem category_setnull_product_spec_witness :
    (Category.delete dbGear 5).isOk = true ∧
    { prodTent with category := none } ∈ dbGearDel.products ∧
    dbGearDel.products.length = dbGear.products.length := by
  have T := category_setnull_product_spec dbGear 5 prodTent (by decide)
    (by decide) (by decide)
  have C := T.2 dbGearDel (by decide)
  exact ⟨T.1, C.1, C.2.1⟩

/-- C6: validation of stock_status accepts exactly the three enumerated
codes IS, OOS and BO, and a Product constructed without an explicit
stock_status carries the out-of-stock default OOS. -/
theorem stock_status_validation_spec (s : String) (idv : Nat)
    (pidv nm : String) (slugOpt descr : Option String)
    (dOpt aOpt : Option Bool) (cat se : Option Nat) :
    (Product.validStockStatus s = true ↔ (s = "IS" ∨ s = "OOS" ∨ s = "BO")) ∧
    (Product.new idv pidv nm slugOpt descr dOpt aOpt none cat
      se).stock_status = Product.OUT_OF_STOCK := by
  constructor
  · constructor
    · intro h
      simp only [Product.validStockStatus, Bool.and_eq_true,
        decide_eq_true_eq] at h
      obtain ⟨-, h⟩ := h
      simpa [Product.STOCK_STATUS, Product.IN_STOCK, Product.OUT_OF_STOCK,
        Product.BACKORDERED, List.contains] using h
    · rintro (rfl | rfl | rfl) <;> rfl
  · rfl

/-- C6 witness: the in-stock code validates, a code outside the enumeration
is rejected, and the concrete default-constructed product carries OOS. -/
theorem stock_status_validation_spec_witness :
    Product.validStockStatus "IS" = true ∧
    Product.validStockStatus "XX" = false ∧
    (Product.new 9 "p" "n" none none none none none none
      none).stock_status = Product.OUT_OF_STOCK := by
  have T := stock_status_validation_spec "XX" 9 "p" "n" none none none none
    none none
  refine ⟨?_, ?_, T.2⟩
  · exact (stock_status_validation_spec "IS" 9 "p" "n" none none none none
      none none).1.mpr (Or.inl rfl)
  · decide

/-- C7 counterexample: stock_qty is a plain integer column with no lower
bound, so inserting a line holding stock_qty = -3 succeeds and the negative
quantity persists, refuting the claimed non-negativity invariant. -/
theorem stock_qty_negative_counterexample :
    ProductLine.insert dbAfterBoots plNegative = .ok dbNeg ∧
    plNegative ∈ dbNeg.product_lines ∧ plNegative.stock_qty < 0 := by decide

/-- C7 amended: a ProductLine created without an explicit stock_qty carries
the declared default 0; no non-negativity constraint is enforced by the
schema. -/
theorem stock_qty_default_amended (idv : Nat) (price order weight : Int)
    (productFk freshUuid : Nat) (skuOpt : Option Nat)
    (activeOpt : Option Bool) :
    (ProductLine.new idv price order weight productFk freshUuid skuOpt none
      activeOpt).stock_qty = 0 := rfl

/-- C8: the first save of a Product stamps both `created_at` and
`updated_at` with the save-time clock, and every later save of the row
keeps the stored `created_at` while refreshing `updated_at` to the new
clock (the persisted row is the saved instance with exactly those
timestamps). -/
theorem timestamps_spec (db : DB) (p0 : Product) (now : Nat) (db' : DB) :
    (Product.insert db p0 now = .ok db' →
      { Product.presave p0 with created_at := now, updated_at := now }
        ∈ db'.products) ∧
    (∀ r ∈ db.products, r.id = p0.id → Product.update db p0 now = .ok db' →
      { Product.presave p0 with updated_at := now, created_at := r.created_at }
        ∈ db'.products) := by
  constructor
  · intro h
    rw [product_insert_ok db p0 now db' h]
    exact List.mem_cons_self _ _
  · intro r hr hrid h
    rw [product_update_ok db p0 now db' h]
    have hid : (r.id == (Product.presave p0).id) = true := by
      rw [product_presave_id p0, hrid]
      exact beq_self_eq_true _
    have hmem := List.mem_map_of_mem (fun q : Product =>
      if q.id == (Product.presave p0).id then
        { Product.presave p0 with updated_at := now, created_at := q.created_at }
      else q) hr
    beta_reduce at hmem
    rw [if_pos hid] at hmem
    exact hmem

/-- C8 witness: inserting the boots product at clock 5 stores both
timestamps as 5; re-saving the row at clock 9 stores created_at 5 and
updated_at 9. -/
theorem timestamps_spec_witness :
    { Product.presave prodBoots with created_at := 5, updated_at := 5 }
      ∈ dbAfterBoots.products ∧
    { Product.presave prodBootsV2 with updated_at := 9, created_at := 5 } ∈ dbAfterBootsUpd.products := by
  constructor
  · exact (timestamps_spec emptyDB prodBoots 5 dbAfterBoots).1 (by decide)
  · exact (timestamps_spec dbAfterBoots prodBootsV2 9 dbAfterBootsUpd).2
      prodBootsStored (by decide) (by decide) (by decide)

/-- C9: the admin display helper parent_name returns none for a category
without a parent reference, and the referenced parent's name when the
reference is present and resolves to a stored row; it is a pure function of
the database and the row, writing nothing. -/
theorem parent_name_spec (db : DB) (c : Category) :
    (c.parent = none → ParentCategoryAdmin.parent_name db c = none) ∧
    (∀ pidp r, c.parent = some pidp →
      db.categories.find? (fun x => x.id == pidp) = some r →
      ParentCategoryAdmin.parent_name db c = some r.name) := by
  constructor
  · intro h
    simp [ParentCategoryAdmin.parent_name, h]
  · intro pidp r hc hf
    simp [ParentCategoryAdmin.parent_name, hc, hf]

/-- C9 witness: in the concrete hierarchy the parentless category displays
none and the child category displays its parent's name "Apparel". -/
theorem parent_name_spec_witness :
    ParentCategoryAdmin.parent_name dbHier catParent = none ∧
    ParentCategoryAdmin.parent_name dbHier catChild = some catParent.name := by
  constructor
  · exact (parent_name_spec dbHier catParent).1 rfl
  · exact (parent_name_spec dbHier catChild).2 10 catParent rfl (by decide)

/-- C10: slug auto-derivation is not injective — the distinct names
"Outdoor Gear" and "outdoor gear" slugify identically — so inserting both
categories without explicit slugs makes the second insert fail with the
slug uniqueness violation even though its name is unique (the name check,
which runs first, passed). -/
theorem slug_collision_spec :
    catOutdoorA.name ≠ catOutdoorB.name ∧
    slugify catOutdoorA.name = slugify catOutdoorB.name ∧
    Category.insert emptyDB catOutdoorA = .ok dbAfterOutdoor ∧
    Category.insert dbAfterOutdoor catOutdoorB =
      .error (DBError.uniqueViolation "slug") := by decide

end Inventory
